import Mathlib

/-
Verification of the context-picker and debugger-session excerpt.

Shallow embedding of:
  src/crates/assistant2/src/context_picker/directory_context_picker.rs
  src/crates/assistant2/src/context_picker/thread_context_picker.rs
  src/crates/debugger_ui/src/session.rs

GUI handles (gpui models, windows, focus) are abstracted away: a weak model
handle (`WeakModel<T>`) becomes an `Option` holding the data the code reads
through it (`none` = the referent was dropped, so `upgrade`/`update` fails),
and the `DismissEvent` emission performed by `dismissed` becomes a boolean
observable `isDismissed`.  The async plumbing (`Task`, `spawn`) is flattened:
each operation is the state transformer obtained by running its task to
completion.  Floating-point fuzzy scores are modelled as naturals (0 is the
minimum score, larger is better), which preserves everything the claims
depend on (minimality, comparison, and the result cap).
-/

/-- Behaviour of the picker after a confirmed selection, as used in both
pickers (`ConfirmBehavior::KeepOpen` keeps the picker open,
`ConfirmBehavior::Close` dismisses it). The enum is declared in
`context_picker.rs`, outside the excerpt; its two variants are fixed by the
`match` arms in both `confirm` implementations. -/
inductive ConfirmBehavior where
  | keepOpen
  | close
deriving DecidableEq, Repr, BEq

/-- Modelled from the spec: the context store (crate `context_store`, not in
the excerpt) performs a "side-effecting insertion into an external store keyed
by a kind tag (e.g., 'directory', 'thread') plus a display label and derived
text payload". One stored entry. -/
structure ContextEntry where
  kind : String
  name : String
  text : String
deriving DecidableEq, Repr

/-- Modelled from the spec: `ContextStore::insert_context` appends an entry
with the given kind tag, display label and text payload. -/
def insert_context (store : List ContextEntry) (kind : String) (name : String)
    (text : String) : List ContextEntry :=
  store ++ [{ kind := kind, name := name, text := text }]

/-- A worktree snapshot as read by the directory picker: its id
(`worktree.id().to_usize()`), root name (`worktree.root_name()`), whether its
root entry is ignored (`worktree.root_entry().map_or(false, |e| e.is_ignored)`),
whether it is visible (`visible_worktrees` vs `worktrees`), and its directory
entries' relative paths in tree order (`worktree.directories(false, 0)`). -/
structure Worktree where
  id : Nat
  root_name : String
  root_ignored : Bool
  visible : Bool
  directories : List String
deriving DecidableEq, Repr

/-- `fuzzy::PathMatch`: a scored path candidate. `path` is the relative path
(Rust `Arc<Path>`, rendered as a string), `pathPrefix` the worktree root-name
label (`path_prefix` in Rust). -/
structure PathMatch where
  score : Nat
  positions : List Nat
  worktree_id : Nat
  path : String
  pathPrefix : String
  distance_to_relative_ancestor : Nat
  is_dir : Bool
deriving DecidableEq, Repr

/-- `project::PathMatchCandidateSet` as built in
`DirectoryContextPickerDelegate::search`: one worktree snapshot, the
include-ignored flag derived from the root entry, and `include_root_name =
true`. The candidate kind is always `Candidates::Directories` here, so the
candidates are `snapshot.directories`. -/
structure PathMatchCandidateSet where
  snapshot : Worktree
  include_ignored : Bool
  include_root_name : Bool
deriving DecidableEq, Repr

/-- `fuzzy::StringMatchCandidate`: a numbered text candidate. -/
structure StringMatchCandidate where
  id : Nat
  string : String
deriving DecidableEq, Repr

/-- `fuzzy::StringMatch`: a scored string candidate (highlight positions are
not recomputed by this model and stay empty). -/
structure StringMatch where
  candidate_id : Nat
  score : Nat
  positions : List Nat
  string : String
deriving DecidableEq, Repr

/-- Whether the first character list appears in the second as an ordered, not
necessarily contiguous, subsequence. -/
def isSubsequence : List Char → List Char → Bool
  | [], _ => true
  | _ :: _, [] => false
  | q :: qs, c :: cs =>
    if q = c then isSubsequence qs cs else isSubsequence (q :: qs) cs

/-- Modelled from the spec: the fuzzy scorer of the `fuzzy` crate (not in the
excerpt). "Each candidate's display text is scored by how well the query's
characters appear as an ordered (not necessarily contiguous) subsequence ...
and shorter overall text length; candidates scoring zero (no valid
subsequence) are excluded."  A candidate containing the query as a
subsequence receives a positive score that decreases with text length; the
contiguous-run and word-boundary bonuses only refine the relative order of
positive scores and are not modelled, since no claim depends on them. -/
def fuzzyScore (query text : String) : Nat :=
  if isSubsequence query.toList text.toList then 1000 - min text.length 999
  else 0

/-- Stable insertion into a list sorted by descending score: the new element
goes after every element of strictly greater score and before the first
element of smaller or equal score, so earlier candidates win score ties. -/
def insertByScoreDesc (sc : α → Nat) (a : α) : List α → List α
  | [] => [a]
  | b :: bs => if sc a < sc b then b :: insertByScoreDesc sc a bs else a :: b :: bs

/-- Stable sort by descending score (insertion sort). -/
def sortByScoreDesc (sc : α → Nat) : List α → List α
  | [] => []
  | a :: rest => insertByScoreDesc sc a (sortByScoreDesc sc rest)

/-- Modelled from the spec: `fuzzy::match_strings` (the `fuzzy` crate is not
in the excerpt). Scores every candidate against the query, drops zero scores,
sorts by descending score with stable ties, and truncates to `max_results`.
The cooperative cancellation flag is advisory; the callers in the excerpt
always pass a freshly created unraised flag, so the model takes the flag's
value once: raised means the scoring stops at once with the (empty) partial
result, unraised means the scoring runs to completion. -/
def match_strings (candidates : List StringMatchCandidate) (query : String)
    (max_results : Nat) (cancel : Bool) : List StringMatch :=
  if cancel then []
  else
    let scored := candidates.filterMap fun c =>
      let sc := fuzzyScore query c.string
      if sc = 0 then none
      else some { candidate_id := c.id, score := sc, positions := [], string := c.string }
    (sortByScoreDesc (fun m => m.score) scored).take max_results

/-- Modelled from the spec: `fuzzy::match_path_sets` (the `fuzzy` crate is not
in the excerpt). "When candidates come from multiple independent sources ...
each source is scored independently against the same query under the same
cancellation token, and results are merged by score before truncation." The
display text of a directory candidate includes the root name when
`include_root_name` is set. `distance_to_relative_ancestor` is untouched by
the excerpt (the call passes `relative_to = None`) and is modelled as 0. -/
def match_path_sets (candidate_sets : List PathMatchCandidateSet) (query : String)
    (max_results : Nat) (cancel : Bool) : List PathMatch :=
  if cancel then []
  else
    let scored := candidate_sets.flatMap fun set =>
      set.snapshot.directories.filterMap fun p =>
        let text := if set.include_root_name then set.snapshot.root_name ++ "/" ++ p else p
        let sc := fuzzyScore query text
        if sc = 0 then none
        else some { score := sc, positions := [], worktree_id := set.snapshot.id,
                    path := p, pathPrefix := set.snapshot.root_name,
                    distance_to_relative_ancestor := 0, is_dir := true }
    (sortByScoreDesc (fun m => m.score) scored).take max_results

/-- State of `DirectoryContextPickerDelegate` together with the observables of
its collaborators. The weak handles become options: `workspace` holds the
project's worktree list while the workspace is alive (`upgrade` succeeds),
`context_store` holds the store contents while the store is alive
(`WeakModel::update` succeeds).  `isDismissed` records whether `dismissed` has
signalled dismissal. -/
structure DirectoryContextPickerDelegate where
  confirm_behavior : ConfirmBehavior
  stored_matches : List PathMatch
  selected_index : Nat
  workspace : Option (List Worktree)
  context_store : Option (List ContextEntry)
  isDismissed : Bool
deriving DecidableEq, Repr

/-- `DirectoryContextPickerDelegate::new`: empty matches, selected index 0. -/
def DirectoryContextPickerDelegate.new (workspace : Option (List Worktree))
    (context_store : Option (List ContextEntry))
    (confirm_behavior : ConfirmBehavior) : DirectoryContextPickerDelegate :=
  { confirm_behavior := confirm_behavior, stored_matches := [], selected_index := 0,
    workspace := workspace, context_store := context_store, isDismissed := false }

/-- `DirectoryContextPickerDelegate::match_count`. -/
def DirectoryContextPickerDelegate.match_count (d : DirectoryContextPickerDelegate) : Nat :=
  d.stored_matches.length

/-- `DirectoryContextPickerDelegate::set_selected_index`: stores the given
index verbatim (`self.selected_index = ix;`). -/
def DirectoryContextPickerDelegate.set_selected_index
    (d : DirectoryContextPickerDelegate) (ix : Nat) : DirectoryContextPickerDelegate :=
  { d with selected_index := ix }

/-- `DirectoryContextPickerDelegate::search`. Empty query: every worktree's
directory entries in tree order, each made into a `PathMatch` with score 0,
no positions, and the worktree root name as prefix label — with no
truncation. Non-empty query: one `PathMatchCandidateSet` per visible
worktree, handed to `fuzzy::match_path_sets` with a cap of 100 under the
caller's cancellation flag. -/
def DirectoryContextPickerDelegate.search (worktrees : List Worktree)
    (query : String) (cancellation_flag : Bool) : List PathMatch :=
  if query = "" then
    worktrees.flatMap fun worktree =>
      worktree.directories.map fun entry =>
        { score := 0, positions := [], worktree_id := worktree.id, path := entry,
          pathPrefix := worktree.root_name, distance_to_relative_ancestor := 0,
          is_dir := true }
  else
    let candidate_sets := (worktrees.filter fun wt => wt.visible).map fun worktree =>
      ({ snapshot := worktree, include_ignored := worktree.root_ignored,
         include_root_name := true } : PathMatchCandidateSet)
    match_path_sets candidate_sets query 100 cancellation_flag

/-- `DirectoryContextPickerDelegate::update_matches`, run to completion. If the
workspace weak handle is dead the task ends immediately with the state
unchanged. Otherwise `search` runs with a freshly created, never raised
cancellation flag, the synchronous post-filter drops matches whose relative
path is the empty path, and the surviving list replaces `matches`
(`selected_index` is not touched). -/
def DirectoryContextPickerDelegate.update_matches
    (d : DirectoryContextPickerDelegate) (query : String) : DirectoryContextPickerDelegate :=
  match d.workspace with
  | none => d
  | some worktrees =>
    let paths := (DirectoryContextPickerDelegate.search worktrees query false).filter
      fun path_match => path_match.path != ""
    { d with stored_matches := paths }

/-- `DirectoryContextPickerDelegate::dismissed`: resets the parent picker's
mode and emits `DismissEvent`; observable here as the dismissal flag. -/
def DirectoryContextPickerDelegate.dismissed
    (d : DirectoryContextPickerDelegate) : DirectoryContextPickerDelegate :=
  { d with isDismissed := true }

/-- `DirectoryContextPickerDelegate::confirm`, run to completion. Out-of-range
selected index (`matches.get` returns `None`) or a dead workspace: early
return, no effect. Then the spawned task inserts a Directory context entry
(label = the match's path, text = empty, per the `TODO` in the source); if the
context store is dead, the `?` aborts the task before the confirm-behaviour
match (the error is logged and swallowed by `detach_and_log_err`). On success,
`KeepOpen` leaves the picker as is and `Close` runs `dismissed`. -/
def DirectoryContextPickerDelegate.confirm
    (d : DirectoryContextPickerDelegate) : DirectoryContextPickerDelegate :=
  match d.stored_matches[d.selected_index]? with
  | none => d
  | some mat =>
    match d.workspace with
    | none => d
    | some _project =>
      match d.context_store with
      | none => d
      | some store =>
        let d1 := { d with
          context_store := some (insert_context store "directory" mat.path "") }
        match d.confirm_behavior with
        | ConfirmBehavior.keepOpen => d1
        | ConfirmBehavior.close => d1.dismissed

/-- `ThreadId` (crate `thread`): an opaque identifier. -/
abbrev ThreadId := Nat

/-- A message role (`language_model::Role`). -/
inductive Role where
  | user
  | assistant
  | system
deriving DecidableEq, Repr

/-- One message of a thread, as read by `ThreadContextPickerDelegate::confirm`. -/
structure Message where
  role : Role
  text : String
deriving DecidableEq, Repr

/-- A thread as read through the thread store: its id, its optional summary
(`thread.summary()` returns `Option<SharedString>`), and its messages. -/
structure Thread where
  id : ThreadId
  summary : Option String
  messages : List Message
deriving DecidableEq, Repr

/-- `ThreadContextEntry`: the picker's own match entry. -/
structure ThreadContextEntry where
  id : ThreadId
  summary : String
deriving DecidableEq, Repr

/-- The entry built for one thread in `ThreadContextPickerDelegate::
update_matches`: the summary defaults to the static string `"New Thread"`
(`thread.summary().unwrap_or(DEFAULT_SUMMARY)`). -/
def threadEntry (t : Thread) : ThreadContextEntry :=
  { id := t.id, summary := t.summary.getD "New Thread" }

/-- The string-match candidates built in the search task: entries enumerated
with their position as candidate id, the candidate text being the entry's
summary. -/
def threadCandidates (entries : List ThreadContextEntry) : List StringMatchCandidate :=
  entries.enum.map fun p => { id := p.1, string := p.2.summary }

/-- The body of the thread search task: an empty query returns every entry in
enumeration order (no scoring, no truncation); a non-empty query runs
`fuzzy::match_strings` with cap 100 under a freshly created, never raised
cancellation flag (`&Default::default()`) and maps each match back to its
entry by candidate id (`threads[mat.candidate_id]`; the id is always in
range, so the model's fallback default is never reached). -/
def threadSearch (entries : List ThreadContextEntry) (query : String) :
    List ThreadContextEntry :=
  if query = "" then entries
  else
    (match_strings (threadCandidates entries) query 100 false).map fun m =>
      entries.getD m.candidate_id { id := 0, summary := "" }

/-- State of `ThreadContextPickerDelegate` with its collaborators'
observables, as for the directory picker: `thread_store` holds the store's
threads while the store is alive, `context_store` the context entries. -/
structure ThreadContextPickerDelegate where
  confirm_behavior : ConfirmBehavior
  stored_matches : List ThreadContextEntry
  selected_index : Nat
  thread_store : Option (List Thread)
  context_store : Option (List ContextEntry)
  isDismissed : Bool
deriving DecidableEq, Repr

/-- `ThreadContextPickerDelegate::new`: empty matches, selected index 0. -/
def ThreadContextPickerDelegate.new (thread_store : Option (List Thread))
    (context_store : Option (List ContextEntry))
    (confirm_behavior : ConfirmBehavior) : ThreadContextPickerDelegate :=
  { confirm_behavior := confirm_behavior, stored_matches := [], selected_index := 0,
    thread_store := thread_store, context_store := context_store,
    isDismissed := false }

/-- `ThreadContextPickerDelegate::match_count`. -/
def ThreadContextPickerDelegate.match_count (d : ThreadContextPickerDelegate) : Nat :=
  d.stored_matches.length

/-- `ThreadContextPickerDelegate::set_selected_index`: stores the given index
verbatim. -/
def ThreadContextPickerDelegate.set_selected_index
    (d : ThreadContextPickerDelegate) (ix : Nat) : ThreadContextPickerDelegate :=
  { d with selected_index := ix }

/-- `ThreadContextPickerDelegate::update_matches`, run to completion. If the
thread store weak handle is dead (`update` fails) the method returns a ready
task and nothing changes. Otherwise the entries are built (summaries
defaulted), searched, and the completion writes the new matches and resets
`selected_index` to 0. -/
def ThreadContextPickerDelegate.update_matches
    (d : ThreadContextPickerDelegate) (query : String) : ThreadContextPickerDelegate :=
  match d.thread_store with
  | none => d
  | some threads =>
    let entries := threads.map threadEntry
    { d with stored_matches := threadSearch entries query, selected_index := 0 }

/-- `ThreadStore::open_thread` as used by `confirm`: find the stored thread
with the given id (`None` when it no longer exists). -/
def open_thread (threads : List Thread) (id : ThreadId) : Option Thread :=
  threads.find? fun t => t.id == id

/-- The per-role label prefixed to each message in the derived text payload. -/
def roleLabel : Role → String
  | Role.user => "User:"
  | Role.assistant => "Assistant:"
  | Role.system => "System:"

/-- The text payload derived from a thread in `ThreadContextPickerDelegate::
confirm`: for each message, its role label, a newline, its text, a newline. -/
def threadText (t : Thread) : String :=
  t.messages.foldl (fun acc m => acc ++ roleLabel m.role ++ "\n" ++ m.text ++ "\n") ""

/-- `ThreadContextPickerDelegate::dismissed`: signals dismissal. -/
def ThreadContextPickerDelegate.dismissed
    (d : ThreadContextPickerDelegate) : ThreadContextPickerDelegate :=
  { d with isDismissed := true }

/-- `ThreadContextPickerDelegate::confirm`. Out-of-range selection, a dead
thread store, or `open_thread` returning `None`: early return, no effect.
The context-store update is followed by `.ok()`, so a dead context store is
swallowed with no insertion — but, unlike the directory picker, control then
still reaches the confirm-behaviour match, so `Close` dismisses the picker
whether or not the insertion happened. -/
def ThreadContextPickerDelegate.confirm
    (d : ThreadContextPickerDelegate) : ThreadContextPickerDelegate :=
  match d.stored_matches[d.selected_index]? with
  | none => d
  | some entry =>
    match d.thread_store with
    | none => d
    | some threads =>
      match open_thread threads entry.id with
      | none => d
      | some thread =>
        let d1 :=
          match d.context_store with
          | none => d
          | some store =>
            let inserted := insert_context store "thread" entry.summary (threadText thread)
            { d with context_store := some inserted }
        match d.confirm_behavior with
        | ConfirmBehavior.keepOpen => d1
        | ConfirmBehavior.close => d1.dismissed

/-- The cancellation tokens allocated by successive `update_matches` calls of
either picker, in generation order: each call constructs a fresh unraised
flag (`Arc::<AtomicBool>::default()` in the directory picker,
`&Default::default()` in the thread picker), and neither picker keeps a
handle to, or stores `true` into, any earlier generation's flag. -/
def update_matches_tokens (tokens : List Bool) : List Bool :=
  tokens ++ [false]

/-- `DebugSessionState` (session.rs): the three-state mode of a debug
session. The gpui entity payloads are abstracted to the data `session_id`
reads from them: nothing for `Inert` and `Starting`, the running adapter
client id for `Running` (`entity.read(cx).client_id()`). -/
inductive DebugSessionState where
  | inert
  | starting
  | running (client_id : Nat)
deriving DecidableEq, Repr

/-- `DebugSession::session_id`. The `Starting` arm of the source is
`unimplemented!()`, a panic; the model returns computations in `Except`,
with `Except.error` marking a panic of the given message. -/
def DebugSession.session_id : DebugSessionState → Except String (Option Nat)
  | DebugSessionState.inert => Except.ok none
  | DebugSessionState.starting => Except.error "not implemented"
  | DebugSessionState.running client_id => Except.ok (some client_id)

/-- A worktree holding 101 directory entries, exceeding the result cap. -/
def c1Worktree : Worktree :=
  { id := 0, root_name := "root", root_ignored := false, visible := true,
    directories := (List.range 101).map fun i => "d" ++ toString i }

/-- C1: the claim as stated is false at the empty query: over a candidate set
of 101 directories, `search("", ...)` returns all 101 matches, more than the
cap of 100 — the empty-query branch collects every directory entry without
truncation. -/
theorem C1_cap_counterexample :
    100 < (DirectoryContextPickerDelegate.search [c1Worktree] "" false).length := by
  decide

/-- C1 (amended): for every non-empty query, both pickers' searches return at
most 100 matches (the `fuzzy` engine truncates to its cap of 100); the
empty-query branches return every candidate with no cap. -/
theorem C1_cap_amended (worktrees : List Worktree)
    (entries : List ThreadContextEntry) (query : String) (cancel : Bool)
    (h : query ≠ "") :
    (DirectoryContextPickerDelegate.search worktrees query cancel).length ≤ 100 ∧
    (threadSearch entries query).length ≤ 100 := by
  constructor
  · unfold DirectoryContextPickerDelegate.search
    rw [if_neg h]
    unfold match_path_sets
    cases cancel with
    | true => simp
    | false =>
      simp only [if_neg Bool.false_ne_true, List.length_take]
      omega
  · unfold threadSearch
    rw [if_neg h]
    rw [List.length_map]
    unfold match_strings
    simp only [if_neg Bool.false_ne_true, List.length_take]
    omega

/-- C1 amended, witnessed at query `"x"`. -/
theorem C1_cap_amended_witness :
    (DirectoryContextPickerDelegate.search [] "x" false).length ≤ 100 ∧
    (threadSearch [] "x").length ≤ 100 :=
  C1_cap_amended [] [] "x" false (by decide)

/-- 101 thread entries, exceeding the result cap. -/
def c2Entries : List ThreadContextEntry :=
  (List.range 101).map fun i => { id := i, summary := "t" ++ toString i }

/-- C2: the claim as stated is false: with 101 candidates, the empty-query
search returns all 101 of them, so the result is not truncated at the cap. -/
theorem C2_empty_query_counterexample :
    100 < (threadSearch c2Entries "").length := by
  decide

/-- C2 (amended): an empty query bypasses scoring and returns the candidates
in their enumeration order — the directory picker emits one `PathMatch` per
directory entry in worktree order, each with minimum score 0 and no highlight
positions, and the thread picker returns its entry list unchanged — but with
no truncation at the cap. -/
theorem C2_empty_query_amended (worktrees : List Worktree)
    (entries : List ThreadContextEntry) :
    (DirectoryContextPickerDelegate.search worktrees "" false).map
        (fun m => (m.worktree_id, m.path)) =
      worktrees.flatMap (fun wt => wt.directories.map fun p => (wt.id, p)) ∧
    ((DirectoryContextPickerDelegate.search worktrees "" false).all
        fun m => m.score == 0 && m.positions.isEmpty) = true ∧
    threadSearch entries "" = entries := by
  refine ⟨?_, ?_, ?_⟩
  · unfold DirectoryContextPickerDelegate.search
    rw [if_pos rfl, List.map_flatMap]
    simp only [List.map_map]
    rfl
  · unfold DirectoryContextPickerDelegate.search
    rw [if_pos rfl]
    simp
  · unfold threadSearch
    rw [if_pos rfl]

/-- A directory picker delegate holding exactly one match. -/
def c3State : DirectoryContextPickerDelegate :=
  { confirm_behavior := ConfirmBehavior.keepOpen,
    stored_matches := [{ score := 0, positions := [], worktree_id := 0, path := "a",
                         pathPrefix := "root", distance_to_relative_ancestor := 0,
                         is_dir := true }],
    selected_index := 0, workspace := some [], context_store := some [],
    isDismissed := false }

/-- C3: the claim as stated is false: with one stored match,
`set_selected_index 5` leaves the selected index at 5, which is greater than
or equal to the match count 1 although the matches are non-empty — the
delegate stores the index verbatim, with no clamping. -/
theorem C3_clamp_counterexample :
    (c3State.set_selected_index 5).match_count ≤
        (c3State.set_selected_index 5).selected_index ∧
    (c3State.set_selected_index 5).match_count ≠ 0 := by
  decide

/-- C3 (amended): neither delegate clamps — `set_selected_index` stores the
given index verbatim — so the `[0, match_count)` bound relies on the callers;
the thread picker's `update_matches` resets the selected index to 0 when the
thread store is alive, while the directory picker's `update_matches` leaves
the selected index unchanged. -/
theorem C3_clamp_amended (d : DirectoryContextPickerDelegate)
    (t : ThreadContextPickerDelegate) (ix : Nat) (q : String)
    (threads : List Thread) (h : t.thread_store = some threads) :
    (d.set_selected_index ix).selected_index = ix ∧
    (t.set_selected_index ix).selected_index = ix ∧
    (d.update_matches q).selected_index = d.selected_index ∧
    (t.update_matches q).selected_index = 0 := by
  refine ⟨rfl, rfl, ?_, ?_⟩
  · unfold DirectoryContextPickerDelegate.update_matches
    cases d.workspace with
    | none => rfl
    | some worktrees => rfl
  · unfold ThreadContextPickerDelegate.update_matches
    rw [h]

/-- C3 amended, witnessed on concrete picker states. -/
theorem C3_clamp_amended_witness :
    (c3State.set_selected_index 7).selected_index = 7 ∧
    ((ThreadContextPickerDelegate.new (some []) (some [])
        ConfirmBehavior.keepOpen).set_selected_index 7).selected_index = 7 ∧
    (c3State.update_matches "q").selected_index = c3State.selected_index ∧
    ((ThreadContextPickerDelegate.new (some []) (some [])
        ConfirmBehavior.keepOpen).update_matches "q").selected_index = 0 :=
  C3_clamp_amended c3State
    (ThreadContextPickerDelegate.new (some []) (some []) ConfirmBehavior.keepOpen)
    7 "q" [] rfl

/-- C4: the claim as stated is false: after a second `update_matches` call is
issued, the first generation's cancellation token still reads `false` — it
was never raised — so a superseded search does not observe its token raised. -/
theorem C4_token_counterexample :
    ¬ ((update_matches_tokens (update_matches_tokens []))[0]? = some true) := by
  decide

/-- C4 (amended): each `update_matches` call allocates exactly one fresh
cancellation token initialized unraised and leaves every earlier generation's
token untouched; no token is ever raised, so a superseded search never
observes cancellation (its stale result is merely overwritten on arrival). -/
theorem C4_token_amended (tokens : List Bool)
    (h : tokens.all (fun b => b == false) = true) :
    (update_matches_tokens tokens).length = tokens.length + 1 ∧
    (update_matches_tokens tokens).take tokens.length = tokens ∧
    (update_matches_tokens tokens).all (fun b => b == false) = true := by
  unfold update_matches_tokens
  refine ⟨by simp, List.take_left tokens [false], ?_⟩
  rw [List.all_append, h]
  decide

/-- C4 amended, witnessed on a one-generation history. -/
theorem C4_token_amended_witness :
    (update_matches_tokens [false]).length = [false].length + 1 ∧
    (update_matches_tokens [false]).take [false].length = [false] ∧
    (update_matches_tokens [false]).all (fun b => b == false) = true :=
  C4_token_amended [false] (by decide)

/-- C5: evaluation of `session_id` in the three states: `Inert` returns
`None` and `Running` returns the adapter client's id, but the `Starting` arm
is `unimplemented!()` — a panic, modelled as `Except.error` — so the claim
that retrieval never crashes is met by the code in only two of the three
states. -/
theorem C5_session_id_eval :
    DebugSession.session_id DebugSessionState.inert = Except.ok none ∧
    DebugSession.session_id DebugSessionState.starting =
      Except.error "not implemented" ∧
    ∀ client_id : Nat,
      DebugSession.session_id (DebugSessionState.running client_id) =
        Except.ok (some client_id) :=
  ⟨rfl, rfl, fun _ => rfl⟩

/-- A thread picker delegate in `Close` mode whose context store has been
torn down, with one stored match resolving to a live thread. -/
def c6State : ThreadContextPickerDelegate :=
  { confirm_behavior := ConfirmBehavior.close,
    stored_matches := [{ id := 1, summary := "First thread" }],
    selected_index := 0,
    thread_store := some [{ id := 1, summary := some "First thread", messages := [] }],
    context_store := none, isDismissed := false }

/-- C6: the claim as stated is false for the thread picker: with the context
store torn down (the insertion fails and is swallowed by `.ok()`), `confirm`
in `Close` mode still reaches the confirm-behaviour match and dismisses the
picker, so the picker's open/dismissed status does not stay unchanged. -/
theorem C6_failed_insert_counterexample :
    c6State.context_store = none ∧ c6State.isDismissed = false ∧
    c6State.confirm.isDismissed = true := by
  decide

/-- C6 (amended): a failed context-store insertion is swallowed without a
crash, performs no partial insertion, and leaves the matches and selected
index unchanged; the directory picker's `confirm` then leaves the whole state
untouched (the `?` aborts before the confirm-behaviour match), while the
thread picker still runs the confirm-behaviour match, so in `Close` mode it
dismisses itself despite the failed insertion. -/
theorem C6_failed_insert_amended (d : DirectoryContextPickerDelegate)
    (t : ThreadContextPickerDelegate) (hd : d.context_store = none)
    (ht : t.context_store = none) :
    d.confirm = d ∧
    t.confirm.stored_matches = t.stored_matches ∧
    t.confirm.selected_index = t.selected_index ∧
    t.confirm.context_store = none ∧
    (t.confirm_behavior = ConfirmBehavior.keepOpen → t.confirm = t) ∧
    (∀ (e : ThreadContextEntry) (ths : List Thread) (thr : Thread),
      t.confirm_behavior = ConfirmBehavior.close →
      t.stored_matches[t.selected_index]? = some e →
      t.thread_store = some ths →
      open_thread ths e.id = some thr →
      t.confirm.isDismissed = true) := by
  have hdir : d.confirm = d := by
    unfold DirectoryContextPickerDelegate.confirm
    cases hm : d.stored_matches[d.selected_index]? with
    | none => rfl
    | some mat =>
      cases hw : d.workspace with
      | none => rfl
      | some worktrees => rw [hd]
  have hth : t.confirm.stored_matches = t.stored_matches ∧
      t.confirm.selected_index = t.selected_index ∧
      t.confirm.context_store = none ∧
      (t.confirm_behavior = ConfirmBehavior.keepOpen → t.confirm = t) := by
    cases hm : t.stored_matches[t.selected_index]? with
    | none => simp [ThreadContextPickerDelegate.confirm, hm, ht]
    | some entry =>
      cases hs : t.thread_store with
      | none => simp [ThreadContextPickerDelegate.confirm, hm, hs, ht]
      | some ths0 =>
        cases ho : open_thread ths0 entry.id with
        | none => simp [ThreadContextPickerDelegate.confirm, hm, hs, ho, ht]
        | some thread =>
          cases hb : t.confirm_behavior with
          | keepOpen => simp [ThreadContextPickerDelegate.confirm, hm, hs, ho, ht, hb]
          | close =>
            simp [ThreadContextPickerDelegate.confirm, hm, hs, ho, ht, hb,
              ThreadContextPickerDelegate.dismissed]
  refine ⟨hdir, hth.1, hth.2.1, hth.2.2.1, hth.2.2.2, ?_⟩
  intro e ths thr hb hm hs ho
  simp only [ThreadContextPickerDelegate.confirm, hm, hs, ho, ht, hb,
    ThreadContextPickerDelegate.dismissed]

/-- A directory picker delegate whose context store has been torn down. -/
def c6DirState : DirectoryContextPickerDelegate :=
  { confirm_behavior := ConfirmBehavior.close,
    stored_matches := [{ score := 0, positions := [], worktree_id := 0, path := "a",
                         pathPrefix := "root", distance_to_relative_ancestor := 0,
                         is_dir := true }],
    selected_index := 0, workspace := some [], context_store := none,
    isDismissed := false }

/-- C6 amended, witnessed on concrete torn-down-store picker states. -/
theorem C6_failed_insert_amended_witness :
    c6DirState.confirm = c6DirState ∧
    c6State.confirm.stored_matches = c6State.stored_matches ∧
    c6State.confirm.selected_index = c6State.selected_index ∧
    c6State.confirm.context_store = none ∧
    (c6State.confirm_behavior = ConfirmBehavior.keepOpen →
      c6State.confirm = c6State) ∧
    (∀ (e : ThreadContextEntry) (ths : List Thread) (thr : Thread),
      c6State.confirm_behavior = ConfirmBehavior.close →
      c6State.stored_matches[c6State.selected_index]? = some e →
      c6State.thread_store = some ths →
      open_thread ths e.id = some thr →
      c6State.confirm.isDismissed = true) :=
  C6_failed_insert_amended c6DirState c6State rfl rfl

/-- C7: on a successful confirm — valid selection, live collaborators, live
context store — the entry is inserted into the context store and the picker's
subsequent open/dismissed status equals exactly the confirm-behaviour mode
fixed at construction: dismissed iff the mode is `Close`, for both pickers,
independently of which match was selected. -/
theorem C7_confirm_behavior :
    (∀ (d : DirectoryContextPickerDelegate) (mat : PathMatch)
        (worktrees : List Worktree) (store : List ContextEntry),
      d.stored_matches[d.selected_index]? = some mat →
      d.workspace = some worktrees →
      d.context_store = some store →
      d.isDismissed = false →
      d.confirm.context_store = some (insert_context store "directory" mat.path "") ∧
      d.confirm.isDismissed = (d.confirm_behavior == ConfirmBehavior.close)) ∧
    (∀ (t : ThreadContextPickerDelegate) (entry : ThreadContextEntry)
        (ths : List Thread) (thr : Thread) (store : List ContextEntry),
      t.stored_matches[t.selected_index]? = some entry →
      t.thread_store = some ths →
      open_thread ths entry.id = some thr →
      t.context_store = some store →
      t.isDismissed = false →
      t.confirm.context_store =
        some (insert_context store "thread" entry.summary (threadText thr)) ∧
      t.confirm.isDismissed = (t.confirm_behavior == ConfirmBehavior.close)) := by
  constructor
  · intro d mat worktrees store hm hw hc hdis
    cases hb : d.confirm_behavior with
    | keepOpen =>
      simp [DirectoryContextPickerDelegate.confirm, hm, hw, hc, hb, hdis]
      rfl
    | close =>
      simp [DirectoryContextPickerDelegate.confirm, hm, hw, hc, hb,
        DirectoryContextPickerDelegate.dismissed]
      rfl
  · intro t entry ths thr store hm hs ho hc hdis
    cases hb : t.confirm_behavior with
    | keepOpen =>
      simp [ThreadContextPickerDelegate.confirm, hm, hs, ho, hc, hb, hdis]
      rfl
    | close =>
      simp [ThreadContextPickerDelegate.confirm, hm, hs, ho, hc, hb,
        ThreadContextPickerDelegate.dismissed]
      rfl

/-- A directory picker delegate with one match and a live, empty context
store. -/
def c7DirState : DirectoryContextPickerDelegate :=
  { confirm_behavior := ConfirmBehavior.close,
    stored_matches := [{ score := 0, positions := [], worktree_id := 0, path := "a",
                         pathPrefix := "root", distance_to_relative_ancestor := 0,
                         is_dir := true }],
    selected_index := 0, workspace := some [], context_store := some [],
    isDismissed := false }

/-- A thread picker delegate with one match, a live thread store holding the
matched thread, and a live, empty context store. -/
def c7ThreadState : ThreadContextPickerDelegate :=
  { confirm_behavior := ConfirmBehavior.keepOpen,
    stored_matches := [{ id := 1, summary := "First thread" }],
    selected_index := 0,
    thread_store := some [{ id := 1, summary := some "First thread", messages := [] }],
    context_store := some [], isDismissed := false }

/-- C7, witnessed on concrete successful confirms in both modes. -/
theorem C7_confirm_behavior_witness :
    (c7DirState.confirm.context_store =
        some (insert_context [] "directory" "a" "") ∧
      c7DirState.confirm.isDismissed =
        (c7DirState.confirm_behavior == ConfirmBehavior.close)) ∧
    (c7ThreadState.confirm.context_store =
        some (insert_context [] "thread" "First thread"
          (threadText { id := 1, summary := some "First thread", messages := [] })) ∧
      c7ThreadState.confirm.isDismissed =
        (c7ThreadState.confirm_behavior == ConfirmBehavior.close)) :=
  ⟨C7_confirm_behavior.1 c7DirState _ [] [] rfl rfl rfl rfl,
   C7_confirm_behavior.2 c7ThreadState _ _
     { id := 1, summary := some "First thread", messages := [] } [] rfl rfl rfl rfl rfl⟩

/-- C8: whenever the workspace is alive, `update_matches` stores exactly the
search results with every empty-path match removed: the stored list is the
`retain` filter of the search output, it contains no empty-path entry, and it
is a sublist of the search output — each surviving match is taken verbatim
(score included), so the post-filter re-runs no scoring. -/
theorem C8_post_filter (d : DirectoryContextPickerDelegate)
    (worktrees : List Worktree) (query : String)
    (h : d.workspace = some worktrees) :
    (d.update_matches query).stored_matches =
      (DirectoryContextPickerDelegate.search worktrees query false).filter
        (fun m => m.path != "") ∧
    ((d.update_matches query).stored_matches.all fun m => m.path != "") = true ∧
    (d.update_matches query).stored_matches.Sublist
      (DirectoryContextPickerDelegate.search worktrees query false) := by
  have h1 : (d.update_matches query).stored_matches =
      (DirectoryContextPickerDelegate.search worktrees query false).filter
        (fun m => m.path != "") := by
    simp [DirectoryContextPickerDelegate.update_matches, h]
  refine ⟨h1, ?_, ?_⟩
  · rw [h1, List.all_filter]
    simp
  · rw [h1]
    exact List.filter_sublist _

/-- A directory picker whose workspace has one worktree whose directory
entries include the empty-path sentinel. -/
def c8State : DirectoryContextPickerDelegate :=
  { confirm_behavior := ConfirmBehavior.keepOpen, stored_matches := [],
    selected_index := 0,
    workspace := some [{ id := 3, root_name := "root", root_ignored := false,
                         visible := true, directories := ["", "sub"] }],
    context_store := some [], isDismissed := false }

/-- The worktree list held by `c8State`. -/
def c8Worktrees : List Worktree :=
  [{ id := 3, root_name := "root", root_ignored := false, visible := true,
     directories := ["", "sub"] }]

/-- C8, witnessed on a worktree containing the empty-path sentinel. -/
theorem C8_post_filter_witness :
    (c8State.update_matches "").stored_matches =
      (DirectoryContextPickerDelegate.search c8Worktrees "" false).filter
        (fun m => m.path != "") ∧
    ((c8State.update_matches "").stored_matches.all fun m => m.path != "") = true ∧
    (c8State.update_matches "").stored_matches.Sublist
      (DirectoryContextPickerDelegate.search c8Worktrees "" false) :=
  C8_post_filter c8State c8Worktrees "" rfl

/-- C9: `confirm` is a complete no-op — same matches, same selected index,
same stores, no insertion, no dismissal — when the selected index is out of
range of the match list (in particular when the matches are empty), or when
the workspace (directory picker) or thread store (thread picker) weak
reference can no longer be upgraded; the total model also shows no panic is
reached. -/
theorem C9_confirm_noop :
    (∀ d : DirectoryContextPickerDelegate,
      d.stored_matches[d.selected_index]? = none → d.confirm = d) ∧
    (∀ d : DirectoryContextPickerDelegate, d.workspace = none → d.confirm = d) ∧
    (∀ t : ThreadContextPickerDelegate,
      t.stored_matches[t.selected_index]? = none → t.confirm = t) ∧
    (∀ t : ThreadContextPickerDelegate, t.thread_store = none → t.confirm = t) := by
  refine ⟨?_, ?_, ?_, ?_⟩
  · intro d hm
    simp [DirectoryContextPickerDelegate.confirm, hm]
  · intro d hw
    cases hm : d.stored_matches[d.selected_index]? with
    | none => simp [DirectoryContextPickerDelegate.confirm, hm]
    | some mat => simp [DirectoryContextPickerDelegate.confirm, hm, hw]
  · intro t hm
    simp [ThreadContextPickerDelegate.confirm, hm]
  · intro t hs
    cases hm : t.stored_matches[t.selected_index]? with
    | none => simp [ThreadContextPickerDelegate.confirm, hm]
    | some entry => simp [ThreadContextPickerDelegate.confirm, hm, hs]

/-- An empty-matches directory picker delegate. -/
def c9DirState : DirectoryContextPickerDelegate :=
  DirectoryContextPickerDelegate.new (some []) (some []) ConfirmBehavior.close

/-- A thread picker delegate whose thread store is dead, with one stale
match. -/
def c9ThreadState : ThreadContextPickerDelegate :=
  { confirm_behavior := ConfirmBehavior.close,
    stored_matches := [{ id := 1, summary := "First thread" }],
    selected_index := 0, thread_store := none, context_store := some [],
    isDismissed := false }

/-- C9, witnessed on an empty-matches picker and a dead-store picker. -/
theorem C9_confirm_noop_witness :
    c9DirState.confirm = c9DirState ∧ c9ThreadState.confirm = c9ThreadState :=
  ⟨C9_confirm_noop.1 c9DirState rfl, C9_confirm_noop.2.2.2 c9ThreadState rfl⟩

/-- C10: a thread without a summary is presented through the entry summary
`"New Thread"`: the entry built for position `i` carries that default text,
and the string-match candidate built for position `i` — the text fuzzy
matching operates on — is that same default text, not an absence marker. -/
theorem C10_default_summary (ts : List Thread) (i : Nat) (t : Thread)
    (h1 : ts[i]? = some t) (h2 : t.summary = none) :
    (ts.map threadEntry)[i]? = some { id := t.id, summary := "New Thread" } ∧
    (threadCandidates (ts.map threadEntry))[i]? =
      some { id := i, string := "New Thread" } := by
  have he : (ts.map threadEntry)[i]? = some { id := t.id, summary := "New Thread" } := by
    rw [List.getElem?_map, h1]
    simp [threadEntry, h2]
  refine ⟨he, ?_⟩
  unfold threadCandidates
  rw [List.getElem?_map, List.getElem?_enum, he]
  rfl

/-- C10, witnessed on a single summaryless thread. -/
theorem C10_default_summary_witness :
    ([{ id := 7, summary := none, messages := [] }].map threadEntry)[0]? =
      some { id := 7, summary := "New Thread" } ∧
    (threadCandidates
        ([({ id := 7, summary := none, messages := [] } : Thread)].map threadEntry))[0]? =
      some { id := 0, string := "New Thread" } :=
  C10_default_summary [{ id := 7, summary := none, messages := [] }] 0
    { id := 7, summary := none, messages := [] } rfl rfl
